import Mathlib

/-!
Verification development for the MCA-Project Flask object-detection app
(`src/app.py`).  The Python source is shallowly embedded below:

* `generate_video_frames` (app.py lines 25-44): the streaming frame
  generator is modelled as a function from a capture-source behaviour and a
  consumer budget to a `GenRun` record (chunks delivered, number of
  `cap.release()` calls, and how the run ended).  Python generator
  semantics are modelled explicitly: the body does not run until the first
  `next()` (budget `some 0` means the consumer never pulls), and closing
  the generator early delivers `GeneratorExit` at the yield where the
  generator is suspended, running the `finally` block.
* the routes `video_feed`, `stream_video` and `predict` are modelled as
  functions of an abstract `World` (file system contents, capture-source
  behaviour, detector output, class-name table) and a request record.

External collaborators (cv2, the YOLO model, Flask, werkzeug, os.path) are
modelled by explicit Lean functions whose doc comments state what they
stand for; everything taken from `app.py` itself follows its control flow
line by line.
-/

namespace MCA

/-- Byte string: Python strings restricted to their character sequence. -/
abbrev Str := List Char

/-- Shorthand turning a Lean string literal into a `Str`. -/
def str (s : String) : Str := s.data

/-- ASCII bytes of a string literal (used for the multipart wire format). -/
def asciiBytes (s : String) : List Nat := s.data.map Char.toNat

/-- What happens at one iteration of the `while True` loop of
`generate_video_frames` for one frame that `cap.read()` produced:
either an exception is raised while processing the frame
(`model.predict`, `r.plot()` or `cv2.imencode` raising), or
`cv2.imencode` returns `ok = False` (line 38: `continue`), or encoding
succeeds with the given JPEG bytes.  The end of the event list models
`cap.read()` returning `ok = False` (end of stream, line 32-33). -/
inductive StepEvent
  | procError
  | encodeFail
  | encoded (jpeg : List Nat)
deriving DecidableEq

/-- `true` iff the event is a successfully encoded frame. -/
def StepEvent.isEncoded : StepEvent → Bool
  | .encoded _ => true
  | _ => false

/-- `true` iff the event is an exception raised during frame processing. -/
def StepEvent.isProcError : StepEvent → Bool
  | .procError => true
  | _ => false

/-- Behaviour of `cv2.VideoCapture(video_source)` (external, cv2) for one
source: whether `cap.isOpened()` holds, and the sequence of per-frame
outcomes the `while` loop will see. -/
structure CaptureSource where
  opensOk : Bool
  events : List StepEvent
deriving DecidableEq

/-- How a started generator body ended. -/
inductive Termination
  | endOfStream
  | raised
  | closedByConsumer
deriving DecidableEq

/-- Overall outcome of one generator instance. -/
inductive Outcome
  | notStarted
  | openError
  | finished (t : Termination)
deriving DecidableEq

/-- Observable run of one `generate_video_frames` generator instance:
the multipart chunks actually delivered to the consumer in order, the
number of times `cap.release()` ran, and the outcome. -/
structure GenRun where
  chunks : List (List Nat)
  releases : Nat
  outcome : Outcome
deriving DecidableEq

/-- The fixed bytes preceding each JPEG payload (app.py lines 41-42). -/
def frameHeader : List Nat := asciiBytes "--frame\r\nContent-Type: image/jpeg\r\n\r\n"

/-- The fixed bytes following each JPEG payload (app.py line 42). -/
def frameTail : List Nat := asciiBytes "\r\n"

/-- One multipart chunk as yielded at app.py lines 41-42. -/
def frameChunk (jpeg : List Nat) : List Nat := frameHeader ++ jpeg ++ frameTail

/-- The `try` body of `generate_video_frames` (lines 29-42) together with
the `finally: cap.release()` (lines 43-44), for a started generator.
The budget is the number of chunks the consumer will accept before
closing the generator (`none` = consumes everything).  Each exit path of
the loop — `break` on end of stream, an exception raised while processing
a frame, or `GeneratorExit` delivered at a yield after the last accepted
chunk — runs the `finally` block, recorded as `releases := 1` on that
path. -/
def runBody : List StepEvent → Option Nat → GenRun
  | [], _ => ⟨[], 1, .finished .endOfStream⟩
  | .procError :: _, _ => ⟨[], 1, .finished .raised⟩
  | .encodeFail :: rest, b => runBody rest b
  | .encoded _ :: _, some 0 => ⟨[], 1, .finished .closedByConsumer⟩
  | .encoded j :: _, some 1 => ⟨[frameChunk j], 1, .finished .closedByConsumer⟩
  | .encoded j :: rest, some (k + 2) =>
      let r := runBody rest (some (k + 1))
      ⟨frameChunk j :: r.chunks, r.releases, r.outcome⟩
  | .encoded j :: rest, none =>
      let r := runBody rest none
      ⟨frameChunk j :: r.chunks, r.releases, r.outcome⟩

/-- `generate_video_frames` (app.py lines 25-44) as observed by its
consumer.  A Python generator body does not run until the first `next()`:
budget `some 0` models a consumer that closes the generator before ever
pulling, so neither the open nor the release happens.  Otherwise the body
opens the capture source; on `not cap.isOpened()` it raises
`RuntimeError` before the `try` block, so the `finally` does not run and
no release occurs (lines 26-28). -/
def generate_video_frames (src : CaptureSource) (budget : Option Nat) : GenRun :=
  if budget = some 0 then ⟨[], 0, .notStarted⟩
  else if src.opensOk then runBody src.events budget
  else ⟨[], 0, .openError⟩

/-- `os.path.basename` (external, posix): everything after the last `/`. -/
def basename (p : Str) : Str := (p.reverse.takeWhile (fun c => c ≠ '/')).reverse

/-- `os.path.join` (external, posix) of two components: if the second is
absolute it replaces the first; otherwise a separator is inserted unless
the first part is empty or already ends in one. -/
def os_path_join (a b : Str) : Str :=
  if b.head? = some '/' then b
  else if a.isEmpty || a.getLast? = some '/' then a ++ b
  else a ++ '/' :: b

/-- The extension part of `os.path.splitext` (external, posix): the
suffix from the last dot of the basename, unless all characters of the
basename before that dot are themselves dots (leading dots carry no
extension, e.g. `.bashrc`). -/
def splitextExt (p : Str) : Str :=
  let b := basename p
  let rev := b.reverse
  let afterRev := rev.takeWhile (fun c => c ≠ '.')
  let remaining := rev.dropWhile (fun c => c ≠ '.')
  match remaining with
  | [] => []
  | _ :: before =>
      if before.any (fun c => c ≠ '.') then '.' :: afterRev.reverse else []

/-- Python `str.lower()` restricted to ASCII. -/
def lowerStr (s : Str) : Str := s.map Char.toLower

/-- Whitespace characters of Python `str.split()` with no argument. -/
def isPyWhite (c : Char) : Bool :=
  c == ' ' || c == '\t' || c == '\n' || c == '\r' || c == '\x0b' || c == '\x0c'

/-- Helper for `pyWords`: accumulates the current word (reversed). -/
def wordsAux : Str → Str → List Str
  | [], acc => if acc.isEmpty then [] else [acc.reverse]
  | c :: t, acc =>
      if isPyWhite c then
        if acc.isEmpty then wordsAux t [] else acc.reverse :: wordsAux t []
      else wordsAux t (c :: acc)

/-- Python `str.split()` with no argument: maximal runs of
non-whitespace characters, empties discarded. -/
def pyWords (s : Str) : List Str := wordsAux s []

/-- Characters kept by werkzeug's filename sanitizer (the complement of
its strip pattern): ASCII letters, digits, `_`, `.`, `-`. -/
def keepChar (c : Char) : Bool := c.isAlphanum || c == '_' || c == '.' || c == '-'

/-- Python `str.strip(chars)`: drop characters from `bad` off both ends. -/
def stripChars (bad : List Char) (s : Str) : Str :=
  ((s.dropWhile (fun c => bad.contains c)).reverse.dropWhile (fun c => bad.contains c)).reverse

/-- `werkzeug.utils.secure_filename` (external) on a posix system:
NFKD-normalize and drop non-ASCII (identity resp. a plain filter on the
ASCII fragment modelled here), replace the path separator by a space,
split on whitespace and rejoin with `_`, delete every character outside
`[A-Za-z0-9_.-]`, and strip leading/trailing `.` and `_` (the Windows
device-name special case does not apply on posix). -/
def secure_filename (f : Str) : Str :=
  let ascii := f.filter (fun c => c.toNat < 128)
  let nosep := ascii.map (fun c => if c == '/' then ' ' else c)
  let joined := List.intercalate ['_'] (pyWords nosep)
  let cleaned := joined.filter keepChar
  stripChars ['.', '_'] cleaned

/-- Digits-to-number accumulator used by the numeric-string parsers. -/
def natOfDigits (ds : List Char) : Nat :=
  ds.foldl (fun a c => 10 * a + (c.toNat - 48)) 0

/-- Unsigned decimal literal: digits with an optional single dot. -/
def parseUnsigned (s : Str) : Option ℚ :=
  let intPart := s.takeWhile Char.isDigit
  let rest := s.dropWhile Char.isDigit
  match rest with
  | [] => if intPart.isEmpty then none else some (natOfDigits intPart)
  | '.' :: frac =>
      if frac.all Char.isDigit && !(intPart.isEmpty && frac.isEmpty) then
        some ((natOfDigits intPart : ℚ) + (natOfDigits frac : ℚ) / (10 ^ frac.length))
      else none
  | _ => none

/-- Python's `float()` builtin (external), restricted to plain decimal
literals with an optional sign; any other string raises `ValueError`,
modelled as `none`. -/
def pyFloat (s : Str) : Option ℚ :=
  match s with
  | '+' :: t => parseUnsigned t
  | '-' :: t => (parseUnsigned t).map Neg.neg
  | t => parseUnsigned t

/-- Python's `int()` builtin (external), restricted to signed base-10
digit strings; anything else raises `ValueError`, modelled as `none`. -/
def pyInt (s : Str) : Option Int :=
  let digits : Str → Option Nat := fun t =>
    if !t.isEmpty && t.all Char.isDigit then some (natOfDigits t) else none
  match s with
  | '+' :: t => (digits t).map Int.ofNat
  | '-' :: t => (digits t).map (fun n => -(n : Int))
  | t => (digits t).map Int.ofNat

/-- A request parameter: absent (`request.args.get` returns the default)
or supplied as a string. -/
inductive Param
  | absent
  | val (s : Str)
deriving DecidableEq

/-- `float(request.args.get(name, default))`: absent yields the float
default unchanged, a supplied string goes through `float()` and `none`
models the `ValueError` escaping the handler. -/
def getFloatParam (p : Param) (d : ℚ) : Option ℚ :=
  match p with
  | .absent => some d
  | .val s => pyFloat s

/-- `int(request.args.get(name, default))`, analogously. -/
def getIntParam (p : Param) (d : Int) : Option Int :=
  match p with
  | .absent => some d
  | .val s => pyInt s

/-- Identity handed to `cv2.VideoCapture`: a device index (`/video_feed`)
or a file path (`/stream_video`). -/
inductive SourceId
  | cam (n : Int)
  | file (p : Str)
deriving DecidableEq

/-- One raw box of the YOLO result tensor `r.boxes` (external model
output): class id, confidence, xyxy coordinates. -/
structure RawBox where
  cls : Int
  conf : ℚ
  x1 : ℚ
  y1 : ℚ
  x2 : ℚ
  y2 : ℚ
deriving DecidableEq

/-- One serialized detection dict as built at app.py lines 133-139. -/
structure Detection where
  class_id : Int
  class_name : Str
  confidence : ℚ
  x1 : ℚ
  y1 : ℚ
  x2 : ℚ
  y2 : ℚ
deriving DecidableEq

/-- Decimal rendering of an integer, modelling Python `str(int)`. -/
def intToStr (i : Int) : Str :=
  if i < 0 then '-' :: Nat.toDigits 10 i.natAbs else Nat.toDigits 10 i.natAbs

/-- The detection dict built for one raw box (app.py lines 133-139):
`CLASS_NAMES.get(id, str(id))` resolves the class name. -/
def mkDetection (names : Int → Option Str) (b : RawBox) : Detection :=
  ⟨b.cls, (names b.cls).getD (intToStr b.cls), b.conf, b.x1, b.y1, b.x2, b.y2⟩

/-- The environment the app runs against: which paths are existing
regular files (`os.path.isfile`), how `cv2.VideoCapture` behaves on each
source identity and threshold pair, what the YOLO model returns for a
stored image, and the model's class-name table `CLASS_NAMES`. -/
structure World where
  fs : List Str
  source : SourceId → ℚ → ℚ → CaptureSource
  infer : Str → ℚ → ℚ → List RawBox
  className : Int → Option Str

/-- `app.config['UPLOAD_FOLDER']` (app.py line 9). -/
def UPLOAD_FOLDER : Str := str "static/uploads"

/-- `app.config['OUTPUT_FOLDER']` (app.py line 10). -/
def OUTPUT_FOLDER : Str := str "static/outputs"

/-- The mimetype of both streaming responses (app.py lines 75 and 93). -/
def STREAM_MIMETYPE : Str := str "multipart/x-mixed-replace; boundary=frame"

/-- Video extension allow-list (app.py line 115). -/
def VIDEO_EXTS : List Str := [str ".mp4", str ".avi", str ".mov", str ".mkv"]

/-- `unique_name` (app.py lines 19-22): the timestamp string is passed
explicitly since `datetime.now()` is external. -/
def unique_name (pre : Str) (orig : Str) (ts : Str) : Str :=
  let ext := splitextExt orig
  pre ++ '_' :: ts ++ (if ext.isEmpty then str ".jpg" else ext)

/-- Response of a streaming route: a plain text response with a status
code, an unhandled exception turned by Flask (external) into a 500
Internal Server Error, or a streaming `Response(...)` wrapping one
generator run. -/
inductive Resp
  | text (body : Str) (status : Nat)
  | serverError
  | streaming (src : SourceId) (conf iou : ℚ) (run : GenRun) (mimetype : Str)
deriving DecidableEq

/-- HTTP status code of a response. -/
def Resp.status : Resp → Nat
  | .text _ s => s
  | .serverError => 500
  | .streaming _ _ _ _ _ => 200

/-- Multipart body chunks of a response (empty unless streaming). -/
def Resp.bodyChunks : Resp → List (List Nat)
  | .streaming _ _ _ run _ => run.chunks
  | _ => []

/-- The source identity handed to `cv2.VideoCapture`, if any. -/
def Resp.streamId : Resp → Option SourceId
  | .streaming src _ _ _ _ => some src
  | _ => none

/-- Mimetype of the response, if it is a streaming one. -/
def Resp.mime : Resp → Option Str
  | .streaming _ _ _ _ m => some m
  | _ => none

/-- Query parameters of `/video_feed`. -/
structure VideoFeedReq where
  conf : Param
  iou : Param
  cam : Param
deriving DecidableEq

/-- `video_feed` (app.py lines 69-75): parse `conf`, `iou`, `cam` in that
order (a `ValueError` escapes as a 500) and wrap the generator for device
index `cam` in a multipart response. -/
def video_feed (w : World) (r : VideoFeedReq) (budget : Option Nat) : Resp :=
  match getFloatParam r.conf (1/4 : ℚ) with
  | none => .serverError
  | some conf =>
    match getFloatParam r.iou (9/20 : ℚ) with
    | none => .serverError
    | some iou =>
      match getIntParam r.cam 0 with
      | none => .serverError
      | some cam =>
          .streaming (.cam cam) conf iou
            (generate_video_frames (w.source (.cam cam) conf iou) budget) STREAM_MIMETYPE

/-- Query parameters of `/stream_video`. -/
structure StreamVideoReq where
  video_file : Option Str
  conf : Param
  iou : Param
deriving DecidableEq

/-- Python truthiness of `request.args.get(...)`: `None` and the empty
string are falsy. -/
def pyFalsy : Option Str → Bool
  | none => true
  | some s => s.isEmpty

/-- `stream_video` (app.py lines 77-93), mirroring the code's order:
fetch `video_file`, parse `conf` and `iou` (a `ValueError` escapes as a
500), reject a falsy `video_file` with a 400, sanitize the name, join it
under the upload folder, reject a non-existing path with a 404, and
otherwise stream from the resolved path. -/
def stream_video (w : World) (r : StreamVideoReq) (budget : Option Nat) : Resp :=
  match getFloatParam r.conf (1/4 : ℚ) with
  | none => .serverError
  | some conf =>
    match getFloatParam r.iou (9/20 : ℚ) with
    | none => .serverError
    | some iou =>
      if pyFalsy r.video_file then .text (str "Missing video file path") 400
      else
        let vf := r.video_file.getD []
        let safe_video_file := secure_filename (basename vf)
        let video_path := os_path_join UPLOAD_FOLDER safe_video_file
        if video_path ∈ w.fs then
          .streaming (.file video_path) conf iou
            (generate_video_frames (w.source (.file video_path) conf iou) budget)
            STREAM_MIMETYPE
        else .text (str "Video not found: " ++ video_path) 404

/-- One entry of `request.files.getlist('file')`. -/
structure UploadedFile where
  filename : Str
deriving DecidableEq

/-- Form data of a POST to `/predict`. -/
structure PredictReq where
  hasFileField : Bool
  files : List UploadedFile
  conf : Param
  iou : Param

/-- One entry of `results_data` (app.py lines 140-147 / 149-156); the
`image_path` of an image record and the `video_path` of a video record
are both modelled by the `artifact` field. -/
structure BatchRecord where
  upload_name : Str
  artifact : Str
  conf : ℚ
  iou : ℚ
  detections : List Detection
  is_video : Bool
deriving DecidableEq

/-- What processing one uploaded file produces and does: its result
record, how many times `model.predict` ran for it, and which paths were
written (`file.save` and `Image.save`), in order. -/
structure FileEffect where
  record : BatchRecord
  detectorRuns : Nat
  saves : List Str
deriving DecidableEq

/-- Python `str.replace('\x5c', '/')` as applied at lines 142 and 151. -/
def slashify (s : Str) : Str := s.map (fun c => if c = '\\' then '/' else c)

/-- The body of the `for file in files` loop of `predict` (app.py lines
107-156) for one file: an empty filename is skipped (`continue`,
`none`); otherwise the upload is saved under a unique name, classified
by the lowercased extension of its sanitized filename, and either run
through the detector once (image) or recorded as a video with no
detector call.  `ts` is the timestamp `unique_name` draws from the
clock. -/
def processFile (w : World) (conf iou : ℚ) (ts : Str) (f : UploadedFile) : Option FileEffect :=
  if f.filename.isEmpty then none
  else
    let filename := secure_filename f.filename
    let in_name := unique_name (str "in") filename ts
    let in_path := os_path_join UPLOAD_FOLDER in_name
    let ext := lowerStr (splitextExt filename)
    let is_video := ext ∈ VIDEO_EXTS
    if ¬ is_video then
      let boxes := w.infer in_path conf iou
      let out_name := unique_name (str "out") filename ts
      let out_path := os_path_join OUTPUT_FOLDER out_name
      some ⟨⟨filename, '/' :: slashify out_path, conf, iou,
             boxes.map (mkDetection w.className), false⟩,
            1, [in_path, out_path]⟩
    else
      some ⟨⟨filename, '/' :: slashify in_path, conf, iou, [], true⟩,
            0, [in_path]⟩

/-- Response of `/predict`: a client-error text response, an unhandled
exception turned by Flask (external) into a 500, or the rendered result
page with its records. -/
inductive PredictResp
  | clientError (msg : Str) (status : Nat)
  | serverError
  | page (records : List BatchRecord)
deriving DecidableEq

/-- Response of `/predict` together with its side effects: total number
of `model.predict` invocations and the list of paths written. -/
structure PredictOutcome where
  resp : PredictResp
  detectorRuns : Nat
  saves : List Str
deriving DecidableEq

/-- `predict` (app.py lines 95-157), mirroring the code's order: reject
a request without a `file` part (400), reject an empty list or a list of
only empty filenames (400), parse `conf` and `iou` (a `ValueError`
escapes as a 500), then process each file in order. -/
def predict (w : World) (r : PredictReq) (ts : Str) : PredictOutcome :=
  if ¬ r.hasFileField then ⟨.clientError (str "No file uploaded") 400, 0, []⟩
  else if r.files.isEmpty || r.files.all (fun f => f.filename.isEmpty) then
    ⟨.clientError (str "No selected files") 400, 0, []⟩
  else
    match getFloatParam r.conf (1/4 : ℚ) with
    | none => ⟨.serverError, 0, []⟩
    | some conf =>
      match getFloatParam r.iou (9/20 : ℚ) with
      | none => ⟨.serverError, 0, []⟩
      | some iou =>
        let effs := r.files.filterMap (processFile w conf iou ts)
        ⟨.page (effs.map (fun e => e.record)),
         (effs.map (fun e => e.detectorRuns)).sum,
         (effs.map (fun e => e.saves)).flatten⟩

/-- Concrete environment used by the closed witness statements. -/
def testWorld : World where
  fs := [str "static/uploads/vid.mp4"]
  source := fun _ _ _ => ⟨true, [StepEvent.encoded [7]]⟩
  infer := fun _ _ _ => []
  className := fun _ => none

end MCA

namespace MCA

theorem runBody_releases (evs : List StepEvent) : ∀ b : Option Nat, (runBody evs b).releases = 1 := by
  induction evs with
  | nil => intro b; rfl
  | cons e rest ih =>
    intro b
    cases e with
    | procError => rfl
    | encodeFail => exact ih b
    | encoded j =>
      match b with
      | none => simpa [runBody] using ih none
      | some 0 => rfl
      | some 1 => rfl
      | some (k + 2) => simpa [runBody] using ih (some (k + 1))

theorem runBody_chunks_shape (evs : List StepEvent) :
    ∀ (b : Option Nat) (c : List Nat), c ∈ (runBody evs b).chunks → ∃ j, c = frameChunk j := by
  induction evs with
  | nil => intro b c h; simp [runBody] at h
  | cons e rest ih =>
    intro b c h
    cases e with
    | procError => simp [runBody] at h
    | encodeFail => exact ih b c h
    | encoded j =>
      match b with
      | none =>
        simp only [runBody, List.mem_cons] at h
        rcases h with h | h
        · exact ⟨j, h⟩
        · exact ih none c h
      | some 0 => simp [runBody] at h
      | some 1 =>
        simp only [runBody, List.mem_singleton] at h
        exact ⟨j, h⟩
      | some (k + 2) =>
        simp only [runBody, List.mem_cons] at h
        rcases h with h | h
        · exact ⟨j, h⟩
        · exact ih (some (k + 1)) c h

theorem runBody_none_length (evs : List StepEvent) :
    ((runBody evs none).chunks).length
      = (evs.takeWhile (fun e => !e.isProcError)).countP StepEvent.isEncoded := by
  induction evs with
  | nil => rfl
  | cons e rest ih =>
    cases e with
    | procError => simp [runBody, List.takeWhile_cons, StepEvent.isProcError]
    | encodeFail =>
      simpa [runBody, List.takeWhile_cons, List.countP_cons, StepEvent.isProcError,
        StepEvent.isEncoded] using ih
    | encoded j =>
      simpa [runBody, List.takeWhile_cons, List.countP_cons, StepEvent.isProcError,
        StepEvent.isEncoded] using ih

theorem runBody_all_encoded (jpegs : List (List Nat)) :
    runBody (jpegs.map StepEvent.encoded) none
      = ⟨jpegs.map frameChunk, 1, .finished .endOfStream⟩ := by
  induction jpegs with
  | nil => rfl
  | cons j rest ih => simp [runBody, ih]

/-- C1: for every streaming request whose capture source opens
successfully and whose generator body is started, `cap.release()` runs
exactly once, whichever way the frame loop terminates (end of stream,
an exception raised during detection or encoding, or the consumer
closing the generator early). -/
theorem c1_release_exactly_once (src : CaptureSource) (budget : Option Nat)
    (hopen : src.opensOk = true) (hstart : budget ≠ some 0) :
    (generate_video_frames src budget).releases = 1 := by
  simp [generate_video_frames, hstart, hopen, runBody_releases]

theorem c1_release_exactly_once_witness :
    (generate_video_frames ⟨true, [StepEvent.encoded [7], StepEvent.procError]⟩ none).releases = 1 :=
  c1_release_exactly_once ⟨true, [StepEvent.encoded [7], StepEvent.procError]⟩ none rfl (by decide)

/-- C3: for every capture source identity that fails to open, the started
generator raises the open error (`RuntimeError`, app.py line 28) having
emitted zero chunks, the `while` loop is never entered, and
`cap.release()` is never invoked (0 release calls). -/
theorem c3_open_failure (src : CaptureSource) (budget : Option Nat)
    (hopen : src.opensOk = false) (hstart : budget ≠ some 0) :
    generate_video_frames src budget = ⟨[], 0, Outcome.openError⟩ := by
  simp [generate_video_frames, hstart, hopen]

theorem c3_open_failure_witness :
    generate_video_frames ⟨false, [StepEvent.encoded [7]]⟩ none = ⟨[], 0, Outcome.openError⟩ :=
  c3_open_failure ⟨false, [StepEvent.encoded [7]]⟩ none rfl (by decide)

/-- C4: a per-frame encoding failure (`cv2.imencode` returning not-ok,
app.py lines 38-39) causes only that frame to be skipped — the run
continues exactly as if the frame were absent, contributing no bytes —
and for every fully consumed stream the number of multipart chunks
emitted (each carrying one boundary marker) equals the number of frames
successfully encoded, i.e. the number of `encoded` events processed
before any raised error. -/
theorem c4_skip_and_boundary_count :
    (∀ (rest : List StepEvent) (b : Option Nat),
        runBody (StepEvent.encodeFail :: rest) b = runBody rest b)
    ∧ ∀ evs : List StepEvent,
        ((generate_video_frames ⟨true, evs⟩ none).chunks).length
          = (evs.takeWhile (fun e => !e.isProcError)).countP StepEvent.isEncoded := by
  constructor
  · intro rest b; rfl
  · intro evs
    simpa [generate_video_frames] using runBody_none_length evs

/-- C5: a file capture source holding the frames `jpegs` (all of which
encode successfully), consumed to the end, yields exactly one multipart
chunk per frame in stored order and then terminates normally: the read
returning no frame breaks the loop (end of stream), no error is raised,
and the source is released once. -/
theorem c5_file_source_full_run (jpegs : List (List Nat)) :
    generate_video_frames ⟨true, jpegs.map StepEvent.encoded⟩ none
      = ⟨jpegs.map frameChunk, 1, Outcome.finished Termination.endOfStream⟩ := by
  simpa [generate_video_frames] using runBody_all_encoded jpegs

theorem mem_of_mem_stripChars {c : Char} {bad : List Char} {s : Str}
    (h : c ∈ stripChars bad s) : c ∈ s := by
  unfold stripChars at h
  rw [List.mem_reverse] at h
  have h1 := (List.dropWhile_sublist (fun c => bad.contains c)).mem h
  rw [List.mem_reverse] at h1
  exact (List.dropWhile_sublist (fun c => bad.contains c)).mem h1

theorem no_slash_secure_filename (f : Str) : '/' ∉ secure_filename f := by
  intro h
  have h1 := mem_of_mem_stripChars h
  have h2 := (List.mem_filter.mp h1).2
  simp [keepChar] at h2

theorem os_path_join_upload (nm : Str) (h : '/' ∉ nm) :
    os_path_join UPLOAD_FOLDER nm = UPLOAD_FOLDER ++ '/' :: nm := by
  have hhead : ¬ nm.head? = some '/' := by
    cases nm with
    | nil => simp
    | cons c t =>
      simp only [List.head?_cons, Option.some.injEq]
      intro hc
      exact h (hc ▸ List.mem_cons_self c t)
  rw [os_path_join, if_neg hhead, if_neg (by decide)]

theorem frameChunk_take9 (j : List Nat) :
    (frameChunk j).take 9 = asciiBytes "--frame\r\n" := by
  have h : frameChunk j = frameHeader ++ (j ++ frameTail) := by
    simp [frameChunk, List.append_assoc]
  rw [h, List.take_append_eq_append_take]
  have h1 : 9 - frameHeader.length = 0 := by decide
  rw [h1, List.take_zero, List.append_nil]
  decide

/-- C2 (amended): `conf` and `iou` default to 0.25 and 0.45 when absent,
for both the streaming endpoint (`video_feed`) and the batch endpoint
(`predict`); a malformed (non-numeric) value supplied for either
parameter, at either endpoint, never silently substitutes the default —
the `ValueError` raised by `float()` escapes the handler and Flask
answers 500, a server error (not the HTTP 400 the original claim
states). -/
theorem c2_threshold_parsing (w : World) (b : Option Nat) :
    (video_feed w ⟨.absent, .absent, .absent⟩ b
        = .streaming (.cam 0) (1/4 : ℚ) (9/20 : ℚ)
            (generate_video_frames (w.source (.cam 0) (1/4 : ℚ) (9/20 : ℚ)) b) STREAM_MIMETYPE)
    ∧ (∀ (s : Str) (ip camp : Param), pyFloat s = none →
        video_feed w ⟨.val s, ip, camp⟩ b = .serverError
          ∧ (video_feed w ⟨.val s, ip, camp⟩ b).status = 500)
    ∧ (∀ (cp : Param) (c : ℚ) (s : Str) (camp : Param),
        getFloatParam cp (1/4 : ℚ) = some c → pyFloat s = none →
        video_feed w ⟨cp, .val s, camp⟩ b = .serverError)
    ∧ (∀ (r : PredictReq) (ts : Str), r.hasFileField = true →
        (r.files.isEmpty || r.files.all fun f => f.filename.isEmpty) = false →
        (r.conf = .absent → r.iou = .absent →
          predict w r ts =
            ⟨.page ((r.files.filterMap (processFile w (1/4 : ℚ) (9/20 : ℚ) ts)).map
                fun e => e.record),
             ((r.files.filterMap (processFile w (1/4 : ℚ) (9/20 : ℚ) ts)).map
                fun e => e.detectorRuns).sum,
             ((r.files.filterMap (processFile w (1/4 : ℚ) (9/20 : ℚ) ts)).map
                fun e => e.saves).flatten⟩)
        ∧ (∀ s : Str, pyFloat s = none → r.conf = .val s →
            predict w r ts = ⟨.serverError, 0, []⟩)
        ∧ (∀ (c : ℚ) (s : Str), getFloatParam r.conf (1/4 : ℚ) = some c →
            pyFloat s = none → r.iou = .val s →
            predict w r ts = ⟨.serverError, 0, []⟩)) := by
  refine ⟨rfl, ?_, ?_, ?_⟩
  · intro s ip camp hs
    constructor
    · simp [video_feed, getFloatParam, hs]
    · simp [video_feed, getFloatParam, hs, Resp.status]
  · intro cp c s camp hc hs
    simp only [video_feed, hc]
    simp [getFloatParam, hs]
  · intro r ts hff hne
    refine ⟨?_, ?_, ?_⟩
    · intro hcp hip
      simp [predict, hff, hne, hcp, hip, getFloatParam]
    · intro s hs hcp
      simp [predict, hff, hne, hcp, getFloatParam, hs]
    · intro c s hcp hs hip
      simp only [predict, hcp, hip]
      simp [hff, hne, getFloatParam, hs]

theorem c2_threshold_parsing_witness :
    video_feed testWorld ⟨Param.val (str "abc"), Param.absent, Param.absent⟩ none
        = Resp.serverError
    ∧ (video_feed testWorld ⟨Param.val (str "abc"), Param.absent, Param.absent⟩ none).status
        = 500 :=
  (c2_threshold_parsing testWorld none).2.1 (str "abc") Param.absent Param.absent (by decide)

/-- C2 as stated is false on the code: a malformed `conf` string does
not yield an HTTP 400 client error — the `ValueError` raised at app.py
line 71 escapes the handler and is answered with status 500. -/
theorem c2_counterexample :
    ¬ (video_feed testWorld ⟨Param.val (str "abc"), Param.absent, Param.absent⟩ none).status
        = 400 := by
  decide

/-- C6: every chunk emitted by any generator run is exactly the bytes
of the boundary line and JPEG part header, followed by the JPEG payload,
followed by CRLF; no chunk carries an end-of-multipart terminator (each
chunk's first nine bytes are exactly the non-terminal boundary line
prefix); and both streaming endpoints carry content type
`multipart/x-mixed-replace; boundary=frame` whenever they stream. -/
theorem c6_wire_format :
    (∀ (src : CaptureSource) (b : Option Nat) (c : List Nat),
        c ∈ (generate_video_frames src b).chunks →
          (∃ j, c = frameHeader ++ j ++ frameTail)
            ∧ c.take 9 = asciiBytes "--frame\r\n")
    ∧ frameHeader = asciiBytes "--frame\r\nContent-Type: image/jpeg\r\n\r\n"
    ∧ frameTail = asciiBytes "\r\n"
    ∧ STREAM_MIMETYPE = str "multipart/x-mixed-replace; boundary=frame"
    ∧ (∀ (w : World) (r : VideoFeedReq) (b : Option Nat),
        (video_feed w r b).mime = none ∨ (video_feed w r b).mime = some STREAM_MIMETYPE)
    ∧ (∀ (w : World) (r : StreamVideoReq) (b : Option Nat),
        (stream_video w r b).mime = none
          ∨ (stream_video w r b).mime = some STREAM_MIMETYPE) := by
  refine ⟨?_, rfl, rfl, rfl, ?_, ?_⟩
  · intro src b c hc
    have hshape : ∃ j, c = frameChunk j := by
      unfold generate_video_frames at hc
      by_cases hb : b = some 0
      · simp [hb] at hc
      · rw [if_neg hb] at hc
        by_cases ho : src.opensOk
        · rw [if_pos ho] at hc
          exact runBody_chunks_shape src.events b c hc
        · simp [ho] at hc
    obtain ⟨j, hj⟩ := hshape
    refine ⟨⟨j, by simpa [frameChunk] using hj⟩, ?_⟩
    rw [hj]
    exact frameChunk_take9 j
  · intro w r b
    unfold video_feed
    rcases getFloatParam r.conf (1/4 : ℚ) with _ | c
    · exact Or.inl rfl
    rcases getFloatParam r.iou (9/20 : ℚ) with _ | i
    · exact Or.inl rfl
    rcases getIntParam r.cam 0 with _ | n
    · exact Or.inl rfl
    · exact Or.inr rfl
  · intro w r b
    unfold stream_video
    rcases getFloatParam r.conf (1/4 : ℚ) with _ | c
    · exact Or.inl rfl
    rcases getFloatParam r.iou (9/20 : ℚ) with _ | i
    · exact Or.inl rfl
    by_cases hf : pyFalsy r.video_file
    · simp [hf, Resp.mime]
    · simp only [hf, Bool.false_eq_true, if_false]
      by_cases hm :
          os_path_join UPLOAD_FOLDER (secure_filename (basename (r.video_file.getD [])))
            ∈ w.fs
      · simp [hm, Resp.mime]
      · simp [hm, Resp.mime]

theorem c6_wire_format_witness :
    ((∃ j, frameChunk [9] = frameHeader ++ j ++ frameTail)
      ∧ (frameChunk [9]).take 9 = asciiBytes "--frame\r\n") :=
  c6_wire_format.1 ⟨true, [StepEvent.encoded [9]]⟩ none (frameChunk [9]) (by decide)

/-- C7: one uploaded file with a non-empty filename is classified by the
lowercased extension of its sanitized filename: an extension in
`{.mp4, .avi, .mov, .mkv}` makes it a video — the detector runs zero
times, the record carries an empty detection list, `is_video = true`,
and a reference to the stored input (which is the only saved path);
any other extension makes it an image — the detector runs exactly once,
the record carries the serialized detections, `is_video = false`, and a
reference to the annotated output artifact. -/
theorem c7_classification (w : World) (conf iou : ℚ) (ts : Str) (f : UploadedFile)
    (hne : ¬ f.filename = []) :
    (lowerStr (splitextExt (secure_filename f.filename)) ∈ VIDEO_EXTS →
        processFile w conf iou ts f =
          some ⟨⟨secure_filename f.filename,
                 '/' :: slashify (os_path_join UPLOAD_FOLDER
                    (unique_name (str "in") (secure_filename f.filename) ts)),
                 conf, iou, [], true⟩,
                0,
                [os_path_join UPLOAD_FOLDER
                    (unique_name (str "in") (secure_filename f.filename) ts)]⟩)
    ∧ (lowerStr (splitextExt (secure_filename f.filename)) ∉ VIDEO_EXTS →
        processFile w conf iou ts f =
          some ⟨⟨secure_filename f.filename,
                 '/' :: slashify (os_path_join OUTPUT_FOLDER
                    (unique_name (str "out") (secure_filename f.filename) ts)),
                 conf, iou,
                 (w.infer (os_path_join UPLOAD_FOLDER
                      (unique_name (str "in") (secure_filename f.filename) ts)) conf iou).map
                   (mkDetection w.className),
                 false⟩,
                1,
                [os_path_join UPLOAD_FOLDER
                    (unique_name (str "in") (secure_filename f.filename) ts),
                 os_path_join OUTPUT_FOLDER
                    (unique_name (str "out") (secure_filename f.filename) ts)]⟩) := by
  have hne' : f.filename.isEmpty = false := by
    simp [List.isEmpty_iff, hne]
  constructor <;> intro hext <;> simp [processFile, hne', hext]

theorem c7_classification_witness :
    (processFile testWorld (1/4 : ℚ) (9/20 : ℚ) (str "T") ⟨str "a.mp4"⟩).map
        (fun e => (e.record.is_video, e.record.detections, e.detectorRuns))
      = some (true, [], 0)
    ∧ (processFile testWorld (1/4 : ℚ) (9/20 : ℚ) (str "T") ⟨str "b.jpg"⟩).map
        (fun e => (e.record.is_video, e.detectorRuns))
      = some (false, 1) := by
  have h1 := (c7_classification testWorld (1/4 : ℚ) (9/20 : ℚ) (str "T") ⟨str "a.mp4"⟩
      (by decide)).1 (by decide)
  have h2 := (c7_classification testWorld (1/4 : ℚ) (9/20 : ℚ) (str "T") ⟨str "b.jpg"⟩
      (by decide)).2 (by decide)
  rw [h1, h2]
  exact ⟨rfl, rfl⟩

/-- C8: a batch request without a `file` field, and one where every
uploaded file has an empty filename, are both rejected with HTTP 400,
and in those cases nothing is saved and the detector never runs. -/
theorem c8_batch_rejections (w : World) (r : PredictReq) (ts : Str) :
    (r.hasFileField = false →
        predict w r ts = ⟨.clientError (str "No file uploaded") 400, 0, []⟩)
    ∧ (r.hasFileField = true →
        r.files.all (fun f => f.filename.isEmpty) = true →
        predict w r ts = ⟨.clientError (str "No selected files") 400, 0, []⟩) := by
  constructor
  · intro h
    simp [predict, h]
  · intro h hall
    simp [predict, h, hall]

theorem c8_batch_rejections_witness :
    predict testWorld ⟨false, [⟨str "a.jpg"⟩], Param.absent, Param.absent⟩ (str "T")
      = ⟨.clientError (str "No file uploaded") 400, 0, []⟩
    ∧ predict testWorld ⟨true, [⟨[]⟩], Param.absent, Param.absent⟩ (str "T")
      = ⟨.clientError (str "No selected files") 400, 0, []⟩ :=
  ⟨(c8_batch_rejections testWorld ⟨false, [⟨str "a.jpg"⟩], Param.absent, Param.absent⟩
      (str "T")).1 rfl,
   (c8_batch_rejections testWorld ⟨true, [⟨[]⟩], Param.absent, Param.absent⟩
      (str "T")).2 rfl (by decide)⟩

/-- C9: with well-formed (or absent) thresholds, `stream_video` answers
HTTP 400 when `video_file` is missing and HTTP 404 when the resolved
path is not an existing file; in both cases the response carries zero
multipart body chunks and no capture source identity is ever handed to
`cv2.VideoCapture`. -/
theorem c9_missing_and_notfound (w : World) (cp ip : Param) (b : Option Nat) (c i : ℚ)
    (hc : getFloatParam cp (1/4 : ℚ) = some c)
    (hi : getFloatParam ip (9/20 : ℚ) = some i) :
    (stream_video w ⟨none, cp, ip⟩ b = .text (str "Missing video file path") 400
      ∧ (stream_video w ⟨none, cp, ip⟩ b).bodyChunks = []
      ∧ (stream_video w ⟨none, cp, ip⟩ b).streamId = none)
    ∧ ∀ s : Str, ¬ s = [] →
        os_path_join UPLOAD_FOLDER (secure_filename (basename s)) ∉ w.fs →
        (stream_video w ⟨some s, cp, ip⟩ b
            = .text (str "Video not found: "
                ++ os_path_join UPLOAD_FOLDER (secure_filename (basename s))) 404
          ∧ (stream_video w ⟨some s, cp, ip⟩ b).bodyChunks = []
          ∧ (stream_video w ⟨some s, cp, ip⟩ b).streamId = none) := by
  constructor
  · have h : stream_video w ⟨none, cp, ip⟩ b = .text (str "Missing video file path") 400 := by
      simp only [stream_video, hc, hi]
      simp [pyFalsy]
    exact ⟨h, by rw [h]; rfl, by rw [h]; rfl⟩
  · intro s hs hmem
    have hf : pyFalsy (some s) = false := by
      simp [pyFalsy, List.isEmpty_iff, hs]
    have h : stream_video w ⟨some s, cp, ip⟩ b
        = .text (str "Video not found: "
            ++ os_path_join UPLOAD_FOLDER (secure_filename (basename s))) 404 := by
      simp only [stream_video, hc, hi]
      simp [hf, hmem]
    exact ⟨h, by rw [h]; rfl, by rw [h]; rfl⟩

theorem c9_missing_and_notfound_witness :
    stream_video testWorld ⟨none, Param.absent, Param.absent⟩ none
      = .text (str "Missing video file path") 400
    ∧ stream_video testWorld ⟨some (str "nope.mp4"), Param.absent, Param.absent⟩ none
      = .text (str "Video not found: "
          ++ os_path_join UPLOAD_FOLDER (secure_filename (basename (str "nope.mp4")))) 404 := by
  have h := c9_missing_and_notfound testWorld Param.absent Param.absent none
      (1/4 : ℚ) (9/20 : ℚ) rfl rfl
  exact ⟨h.1.1, (h.2 (str "nope.mp4") (by decide) (by decide)).1⟩

/-- C10: for every string supplied as `video_file`, the identity handed
to `cv2.VideoCapture` (when streaming happens at all) is exactly the
upload folder joined with `secure_filename(os.path.basename(video_file))`;
that sanitized name contains no path separator, and the join therefore
reduces to appending one separator and the name to the upload folder, so
the opened file always lies directly in the upload folder. -/
theorem c10_sanitized_path (w : World) (cp ip : Param) (b : Option Nat) (c i : ℚ) (s : Str)
    (hc : getFloatParam cp (1/4 : ℚ) = some c)
    (hi : getFloatParam ip (9/20 : ℚ) = some i) :
    (∀ sid, (stream_video w ⟨some s, cp, ip⟩ b).streamId = some sid →
        sid = SourceId.file (UPLOAD_FOLDER ++ '/' :: secure_filename (basename s)))
    ∧ '/' ∉ secure_filename (basename s)
    ∧ os_path_join UPLOAD_FOLDER (secure_filename (basename s))
        = UPLOAD_FOLDER ++ '/' :: secure_filename (basename s) := by
  have hns := no_slash_secure_filename (basename s)
  have hj := os_path_join_upload (secure_filename (basename s)) hns
  refine ⟨?_, hns, hj⟩
  intro sid hsid
  simp only [stream_video, hc, hi] at hsid
  by_cases hf : pyFalsy (some s)
  · simp [hf, Resp.streamId] at hsid
  · simp only [hf, Bool.false_eq_true, if_false, Option.getD_some] at hsid
    by_cases hm : os_path_join UPLOAD_FOLDER (secure_filename (basename s)) ∈ w.fs
    · simp only [hm, if_true, Resp.streamId, Option.some.injEq] at hsid
      rw [← hsid, hj]
    · simp [hm, Resp.streamId] at hsid

theorem c10_sanitized_path_witness :
    (stream_video testWorld ⟨some (str "dir/vid.mp4"), Param.absent, Param.absent⟩ none).streamId
      = some (SourceId.file (UPLOAD_FOLDER ++ '/' :: secure_filename (basename (str "dir/vid.mp4"))))
    ∧ '/' ∉ secure_filename (basename (str "dir/vid.mp4")) := by
  have h := c10_sanitized_path testWorld Param.absent Param.absent none
      (1/4 : ℚ) (9/20 : ℚ) (str "dir/vid.mp4") rfl rfl
  have hid : (stream_video testWorld
        ⟨some (str "dir/vid.mp4"), Param.absent, Param.absent⟩ none).streamId
      = some (SourceId.file (os_path_join UPLOAD_FOLDER
          (secure_filename (basename (str "dir/vid.mp4"))))) := by decide
  refine ⟨?_, h.2.1⟩
  rw [hid]
  exact congrArg some (h.1 _ hid)

end MCA
